import Mathlib

/-!
Shallow embedding of the DNS wire-format codec of src/async_dns.py.

Byte strings are modelled as lists of natural numbers (each byte a value
below 256 in every real buffer).  Python functions that can raise an
exception, or that can return the Python value None, are modelled as
Lean functions into Option: a none result stands for the exception (or
for None) and a some result for a normal return value.

The recursive name decoder parse_name of the source has no termination
device of its own; it is embedded with an explicit fuel parameter, which
matches the CPython recursion limit: an execution of the source that
terminates (normally or with an exception) gives the same result at any
sufficiently large fuel, and an execution that recurses forever (a
compression-pointer cycle) exhausts any finite fuel, exactly as CPython
eventually raises RecursionError.  A run of the source visits strictly
increasing distinct buffer positions until it either stops, errors, or
jumps through a pointer, so fuel equal to the buffer length plus one is
enough for every terminating run; the top-level wrapper uses that value.
-/

/-- Byte strings of the source, as lists of natural numbers. -/
abbrev Bytes := List Nat

/-- Constant QTYPE_A of the source. -/
def QTYPE_A : Nat := 1

/-- Constant QTYPE_AAAA of the source. -/
def QTYPE_AAAA : Nat := 28

/-- Constant QTYPE_CNAME of the source. -/
def QTYPE_CNAME : Nat := 5

/-- Constant QTYPE_NS of the source. -/
def QTYPE_NS : Nat := 2

/-- Constant QCLASS_IN of the source. -/
def QCLASS_IN : Nat := 1

/-- Python slice d[a:b] for nonnegative bounds: clamps at the end of the
list and yields the empty list when b is at most a. -/
def pySlice (d : Bytes) (a b : Nat) : Bytes := (d.drop a).take (b - a)

/-- Python bytes.strip of a dot byte (46): removes leading and trailing
dots, as in line 78 of the source. -/
def pyStrip (d : Bytes) : Bytes :=
  ((d.dropWhile (· == 46)).reverse.dropWhile (· == 46)).reverse

/-- Joining a list of labels with dot bytes, Python b-dot-join. -/
def joinDots (ls : List Bytes) : Bytes := List.intercalate [46] ls

/-- Big-endian 16-bit read of two bytes at index i, as struct.unpack of a
network-order H field does. -/
def read16 (d : Bytes) (i : Nat) : Nat := 256 * d.getD i 0 + d.getD (i + 1) 0

/-- Big-endian signed 32-bit read at index i, as struct.unpack of a
network-order i field does (two's complement). -/
def readI32 (d : Bytes) (i : Nat) : Int :=
  let v := 16777216 * d.getD i 0 + 65536 * d.getD (i + 1) 0 +
    256 * d.getD (i + 2) 0 + d.getD (i + 3) 0
  if v < 2147483648 then (v : Int) else (v : Int) - 4294967296

/-- Big-endian 16-bit write, as struct.pack of an H field does for values
below 65536 (the only values the source passes). -/
def pack16 (n : Nat) : Bytes := [n / 256 % 256, n % 256]

/-- Loop body of build_address (source lines 80 to 88): one length byte
then the label bytes per label, a zero terminator at the end, failure
(Python None) as soon as a label is longer than 63 bytes. -/
def buildLabels : List Bytes → Option Bytes
  | [] => some [0]
  | lab :: rest =>
    if lab.length > 63 then none
    else (buildLabels rest).map (fun r => lab.length :: (lab ++ r))

/-- Function build_address of the source (lines 77 to 88): strips leading
and trailing dots, splits the hostname on dots, and emits the
length-prefixed labels with a zero terminator; none models the Python
None returned for a label longer than 63 bytes. -/
def build_address (address : Bytes) : Option Bytes :=
  buildLabels ((pyStrip address).splitOn 46)

/-- Function build_request of the source (lines 91 to 96).  The two random
bytes from os.urandom are passed in as the requestId parameter.  The
packed header struct places the bytes 1 and 0 as the two flag bytes and
then QDCOUNT equal to one and three zero counts.  When build_address
returns None the source concatenates None with bytes and raises an
uncaught TypeError; that exceptional outcome is the none result here. -/
def build_request (requestId address : Bytes) (qtype : Nat) : Option Bytes :=
  (build_address address).map (fun addr =>
    requestId ++ [1, 0, 0, 1, 0, 0, 0, 0, 0, 0] ++ addr ++
      pack16 qtype ++ pack16 QCLASS_IN)

/-- Recursive core of parse_name of the source (lines 110 to 128), with
explicit fuel.  It returns the final buffer position (from which the
source computes the byte count by subtracting the starting offset) and
the list of collected labels; a pointer contributes the already joined
text of the pointed-to name as a single entry, exactly as the source
appends the joined result of its recursive call.  A none result models
an IndexError or struct.error of the source, or, on fuel exhaustion, its
unbounded recursion through a pointer cycle. -/
def parseNameF : Nat → Bytes → Nat → Option (Nat × List Bytes)
  | 0, _, _ => none
  | fuel + 1, data, p =>
    match data[p]? with
    | none => none
    | some l =>
      if l = 0 then some (p + 1, [])
      else if l &&& 192 = 192 then
        match data[p + 1]? with
        | none => none
        | some b2 =>
          match parseNameF fuel data ((l * 256 + b2) % 16384) with
          | none => none
          | some (_, labs) => some (p + 2, [joinDots labs])
      else
        match parseNameF fuel data (p + 1 + l) with
        | none => none
        | some (q, labs) => some (q, pySlice data (p + 1) (p + 1 + l) :: labs)

/-- Function parse_name of the source (lines 110 to 128): returns the
number of bytes consumed at the given offset and the dot-joined name.
Fuel one more than the buffer length covers every terminating run of the
source, as explained in the header comment. -/
def parse_name (data : Bytes) (offset : Nat) : Option (Nat × Bytes) :=
  (parseNameF (data.length + 1) data offset).map
    (fun r => (r.1 - offset, joinDots r.2))

/-- Result of parse_ip of the source: a textual IPv4 or IPv6 address
(kept as the underlying bytes, since the presentation conversion of
inet_ntop is injective), a decoded name, or raw uninterpreted bytes. -/
inductive Payload where
  | ip4 (bytes : Bytes)
  | ip6 (bytes : Bytes)
  | name (n : Bytes)
  | raw (bytes : Bytes)
deriving DecidableEq, Repr

/-- Function parse_ip of the source (lines 99 to 107).  For QTYPE_A the
call to inet_ntop with AF_INET raises unless the slice has exactly four
bytes, for QTYPE_AAAA unless it has exactly sixteen; for CNAME and NS
the payload is a nested name via parse_name; every other type keeps the
sliced bytes uninterpreted. -/
def parse_ip (addrtype : Nat) (data : Bytes) (length offset : Nat) : Option Payload :=
  if addrtype = QTYPE_A then
    let s := pySlice data offset (offset + length)
    if s.length = 4 then some (.ip4 s) else none
  else if addrtype = QTYPE_AAAA then
    let s := pySlice data offset (offset + length)
    if s.length = 16 then some (.ip6 s) else none
  else if addrtype = QTYPE_CNAME ∨ addrtype = QTYPE_NS then
    (parse_name data offset).map (fun r => .name r.2)
  else some (.raw (pySlice data offset (offset + length)))

/-- Record tuple built by parse_record of the source.  For a question
record the source returns the tuple of name, None, type, class, None,
None; the addr and ttl fields are Option values to carry those Nones. -/
structure DNSRecord where
  name : Bytes
  addr : Option Payload
  rtype : Nat
  rclass : Nat
  ttl : Option Int
deriving DecidableEq, Repr

/-- Function parse_record of the source (lines 153 to 166): decodes the
name, then for a question two 16-bit fields (struct.error, hence none,
when fewer than four bytes remain), else type, class, signed ttl,
rdlength and the rdata payload via parse_ip. -/
def parse_record (data : Bytes) (offset : Nat) (question : Bool) :
    Option (Nat × DNSRecord) :=
  match parse_name data offset with
  | none => none
  | some (nlen, name) =>
    if question then
      if offset + nlen + 4 ≤ data.length then
        some (nlen + 4,
          ⟨name, none, read16 data (offset + nlen), read16 data (offset + nlen + 2), none⟩)
      else none
    else
      if offset + nlen + 10 ≤ data.length then
        let rtype := read16 data (offset + nlen)
        let rdlength := read16 data (offset + nlen + 8)
        match parse_ip rtype data rdlength (offset + nlen + 10) with
        | none => none
        | some ip => some (nlen + 10 + rdlength,
            ⟨name, some ip, rtype, read16 data (offset + nlen + 2),
              some (readI32 data (offset + nlen + 4))⟩)
      else none

/-- Header tuple returned by parse_header of the source.  The flag fields
hold the masked byte values exactly as the source computes them: res_qr
is the first flags byte masked with 128, res_tc the same byte masked
with 2, res_ra and res_rcode the second flags byte masked with 128 and
with 15.  No other flag bits are extracted by the source. -/
structure Header where
  res_id : Nat
  res_qr : Nat
  res_tc : Nat
  res_ra : Nat
  res_rcode : Nat
  res_qdcount : Nat
  res_ancount : Nat
  res_nscount : Nat
  res_arcount : Nat
deriving DecidableEq, Repr

/-- Function parse_header of the source (lines 169 to 185): none (Python
None) for a buffer shorter than 12 bytes, otherwise the unpacked id, the
masked flag bytes and the four counts. -/
def parse_header (data : Bytes) : Option Header :=
  if 12 ≤ data.length then
    some ⟨read16 data 0, data.getD 2 0 &&& 128, data.getD 2 0 &&& 2,
      data.getD 3 0 &&& 128, data.getD 3 0 &&& 15,
      read16 data 4, read16 data 6, read16 data 8, read16 data 10⟩
  else none

/-- Response object of the source: hostname of the first question when
one exists, and the question and answer triples the source builds from
positions 1, 2 and 3 of each record tuple (addr, type, class). -/
structure DNSResponse where
  hostname : Option Bytes
  questions : List (Option Payload × Nat × Nat)
  answers : List (Option Payload × Nat × Nat)
deriving DecidableEq, Repr

/-- One record-section loop of parse_response of the source: parses n
records starting at the given offset, advancing by the consumed byte
count, and fails as a whole as soon as one record fails. -/
def parseRecords (data : Bytes) : Nat → Nat → Bool → Option (Nat × List DNSRecord)
  | 0, offset, _ => some (offset, [])
  | n + 1, offset, question =>
    match parse_record data offset question with
    | none => none
    | some (l, r) =>
      match parseRecords data n (offset + l) question with
      | none => none
      | some (o, rs) => some (o, r :: rs)

/-- Function parse_response of the source (lines 188 to 226): header,
then the four record sections; any exception anywhere is caught by the
source and turned into None, modelled by the none propagation; the
authority and additional records only advance the offset. -/
def parse_response (data : Bytes) : Option DNSResponse :=
  if 12 ≤ data.length then
    match parse_header data with
    | none => none
    | some h =>
      match parseRecords data h.res_qdcount 12 true with
      | none => none
      | some (o1, qds) =>
        match parseRecords data h.res_ancount o1 false with
        | none => none
        | some (o2, ans) =>
          match parseRecords data h.res_nscount o2 false with
          | none => none
          | some (o3, _) =>
            match parseRecords data h.res_arcount o3 false with
            | none => none
            | some _ =>
              some ⟨qds.head?.map DNSRecord.name,
                qds.map (fun r => (r.addr, r.rtype, r.rclass)),
                ans.map (fun r => (r.addr, r.rtype, r.rclass))⟩
  else none

/-- One byte of the character class of the VALID_HOSTNAME pattern (source
line 34): letters of either case via the IGNORECASE flag, digits, or a
hyphen. -/
def isHostByte (b : Nat) : Bool :=
  (65 ≤ b && b ≤ 90) || (97 ≤ b && b ≤ 122) || (48 ≤ b && b ≤ 57) || b == 45

/-- Full-string core of the VALID_HOSTNAME pattern: one to 63 bytes of
the class, neither starting nor ending with a hyphen. -/
def labelCore (s : Bytes) : Bool :=
  decide (1 ≤ s.length) && decide (s.length ≤ 63) && s.all isHostByte &&
    !(s.headD 0 == 45) && !(s.getLastD 0 == 45)

/-- Match of the VALID_HOSTNAME pattern against one label.  The pattern
is anchored at the start by re.match and at the end by a dollar, which
in Python also matches just before one trailing newline, so a label is
accepted when the whole label, or the whole label minus one trailing
newline byte, satisfies the core. -/
def label_match (s : Bytes) : Bool :=
  labelCore s || (s.getLast? == some 10 && labelCore s.dropLast)

/-- Function is_valid_hostname of the source (lines 229 to 234) under
Python 3 semantics.  The source first rejects hostnames longer than 255
bytes.  Its next line compares the integer hostname[-1] with the bytes
object for a dot; under Python 3 an int never equals a bytes object, so
the branch that would drop a trailing dot is dead and no stripping
happens (on an empty hostname the indexing itself raises IndexError,
modelled as none).  Finally every dot-separated label must match the
VALID_HOSTNAME pattern. -/
def is_valid_hostname (hostname : Bytes) : Option Bool :=
  if hostname.length > 255 then some false
  else if hostname.length = 0 then none
  else some ((hostname.splitOn 46).all label_match)

/-- Reference encoding of a label list: the byte string build_address
produces when every label is short enough. -/
def encodeLabels : List Bytes → Bytes
  | [] => [0]
  | lab :: rest => lab.length :: (lab ++ encodeLabels rest)

/-- Response buffer with one answer record of an unknown type (99) whose
RDLENGTH field (100) reaches far past the end of the 25-byte buffer. -/
def overrunBuf : Bytes :=
  [0, 0, 0, 0, 0, 0, 0, 1, 0, 0, 0, 0, 0, 0, 99, 0, 1, 0, 0, 0, 0, 0, 100, 1, 2]

/-- Response buffer with exactly one question record (name a, type A,
class IN) and no other records. -/
def oneQuestionBuf : Bytes :=
  [0, 1, 0, 0, 0, 1, 0, 0, 0, 0, 0, 0, 1, 97, 0, 0, 1, 0, 1]

/-- Response buffer with two question records where the second question's
name is wire-encoded purely as a compression pointer (bytes 192 and 12)
to the first question's name at offset 12. -/
def twoQuestionBuf : Bytes :=
  [0, 0, 0, 0, 0, 2, 0, 0, 0, 0, 0, 0, 1, 97, 0, 0, 1, 0, 1, 192, 12, 0, 1, 0, 1]

/-- Header-only buffer of a reply: id 1 and the top bit of the first
flags byte set. -/
def replyHeaderBuf : Bytes := [0, 1, 128, 0, 0, 0, 0, 0, 0, 0, 0, 0]

/-- A length byte of value below 64 never has both of the two top bits
set, so it is taken as a plain label length by the decoder. -/
theorem and192_eq_zero : ∀ n : Nat, n < 64 → n &&& 192 = 0 := by decide

/-- When every label is at most 63 bytes long, the build_address loop
produces exactly the reference encoding. -/
theorem buildLabels_eq (ls : List Bytes) (h : ∀ lab ∈ ls, lab.length ≤ 63) :
    buildLabels ls = some (encodeLabels ls) := by
  induction ls with
  | nil => rfl
  | cons lab rest ih =>
    have h1 : lab.length ≤ 63 := h lab (List.mem_cons_self _ _)
    have h2 : ∀ l ∈ rest, l.length ≤ 63 := fun l hl => h l (List.mem_cons_of_mem _ hl)
    simp [buildLabels, encodeLabels, Nat.not_lt.2 h1, ih h2]

/-- The reference encoding is strictly longer than the number of labels
it encodes, which bounds the fuel the decoder needs. -/
theorem length_lt_encodeLabels (ls : List Bytes) : ls.length < (encodeLabels ls).length := by
  induction ls with
  | nil => simp [encodeLabels]
  | cons lab rest ih => simp [encodeLabels]; omega

/-- Core round-trip lemma: inside any buffer, the decoder run on the
reference encoding of a list of labels of lengths one to 63 consumes
exactly the encoding and returns exactly those labels, for any fuel
larger than the number of labels. -/
theorem parseNameF_encode (labels : List Bytes) :
    ∀ (pre post : Bytes) (fuel : Nat),
      (∀ lab ∈ labels, 1 ≤ lab.length ∧ lab.length ≤ 63) →
      labels.length < fuel →
      parseNameF fuel (pre ++ (encodeLabels labels ++ post)) pre.length
        = some (pre.length + (encodeLabels labels).length, labels) := by
  induction labels with
  | nil =>
    intro pre post fuel _ hfuel
    obtain ⟨f, rfl⟩ : ∃ f, fuel = f + 1 := ⟨fuel - 1, by omega⟩
    have hget : (pre ++ (encodeLabels [] ++ post))[pre.length]? = some 0 := by
      rw [List.getElem?_append_right (Nat.le_refl _)]
      simp [encodeLabels]
    show (match (pre ++ (encodeLabels [] ++ post))[pre.length]? with
      | none => none
      | some l =>
        if l = 0 then some (pre.length + 1, [])
        else if l &&& 192 = 192 then
          match (pre ++ (encodeLabels [] ++ post))[pre.length + 1]? with
          | none => none
          | some b2 =>
            match parseNameF f (pre ++ (encodeLabels [] ++ post)) ((l * 256 + b2) % 16384) with
            | none => none
            | some (_, labs) => some (pre.length + 2, [joinDots labs])
        else
          match parseNameF f (pre ++ (encodeLabels [] ++ post)) (pre.length + 1 + l) with
          | none => none
          | some (q, labs) =>
            some (q, pySlice (pre ++ (encodeLabels [] ++ post))
              (pre.length + 1) (pre.length + 1 + l) :: labs))
      = some (pre.length + (encodeLabels []).length, [])
    rw [hget]
    simp [encodeLabels]
  | cons lab rest ih =>
    intro pre post fuel hl hfuel
    obtain ⟨f, rfl⟩ : ∃ f, fuel = f + 1 := ⟨fuel - 1, by omega⟩
    have hlab := hl lab (List.mem_cons_self _ _)
    have hrest : ∀ l ∈ rest, 1 ≤ l.length ∧ l.length ≤ 63 :=
      fun l h => hl l (List.mem_cons_of_mem _ h)
    have hdata : pre ++ (encodeLabels (lab :: rest) ++ post)
        = (pre ++ (lab.length :: lab)) ++ (encodeLabels rest ++ post) := by
      simp [encodeLabels]
    have hget : (pre ++ (encodeLabels (lab :: rest) ++ post))[pre.length]? = some lab.length := by
      rw [List.getElem?_append_right (Nat.le_refl _)]
      simp [encodeLabels]
    have hne : ¬(lab.length = 0) := by omega
    have hptr : ¬(lab.length &&& 192 = 192) := by
      rw [and192_eq_zero lab.length (by omega)]; omega
    have hpre' : (pre ++ (lab.length :: lab)).length = pre.length + 1 + lab.length := by
      simp; omega
    have hrec : parseNameF f (pre ++ (encodeLabels (lab :: rest) ++ post))
        (pre.length + 1 + lab.length)
        = some ((pre.length + 1 + lab.length) + (encodeLabels rest).length, rest) := by
      rw [hdata, ← hpre']
      rw [ih (pre ++ (lab.length :: lab)) post f hrest (by simpa using hfuel)]
    have hslice : pySlice (pre ++ (encodeLabels (lab :: rest) ++ post))
        (pre.length + 1) (pre.length + 1 + lab.length) = lab := by
      have hd2 : pre ++ (encodeLabels (lab :: rest) ++ post)
          = (pre ++ [lab.length]) ++ (lab ++ (encodeLabels rest ++ post)) := by
        simp [encodeLabels]
      have hl1 : (pre ++ [lab.length]).length = pre.length + 1 := by simp
      rw [pySlice, hd2, Nat.add_sub_cancel_left, ← hl1, List.drop_left, List.take_left]
    show (match (pre ++ (encodeLabels (lab :: rest) ++ post))[pre.length]? with
      | none => none
      | some l =>
        if l = 0 then some (pre.length + 1, [])
        else if l &&& 192 = 192 then
          match (pre ++ (encodeLabels (lab :: rest) ++ post))[pre.length + 1]? with
          | none => none
          | some b2 =>
            match parseNameF f (pre ++ (encodeLabels (lab :: rest) ++ post))
                ((l * 256 + b2) % 16384) with
            | none => none
            | some (_, labs) => some (pre.length + 2, [joinDots labs])
        else
          match parseNameF f (pre ++ (encodeLabels (lab :: rest) ++ post)) (pre.length + 1 + l) with
          | none => none
          | some (q, labs) =>
            some (q, pySlice (pre ++ (encodeLabels (lab :: rest) ++ post))
              (pre.length + 1) (pre.length + 1 + l) :: labs))
      = some (pre.length + (encodeLabels (lab :: rest)).length, lab :: rest)
    rw [hget]
    dsimp only
    rw [if_neg hne, if_neg hptr, hrec]
    dsimp only
    rw [hslice]
    have hlen2 : pre.length + 1 + lab.length + (encodeLabels rest).length
        = pre.length + (encodeLabels (lab :: rest)).length := by
      simp [encodeLabels]; omega
    rw [hlen2]

/-- Normal form of build_request when name encoding succeeds. -/
theorem build_request_eq (rid address : Bytes) (qtype : Nat) (e : Bytes)
    (he : build_address address = some e) :
    build_request rid address qtype =
      some (rid ++ [1, 0, 0, 1, 0, 0, 0, 0, 0, 0] ++ e ++ pack16 qtype ++ pack16 QCLASS_IN) := by
  simp [build_request, he]

/-- A parsed question record always carries the Python None in its addr
slot: the source builds the tuple name, None, type, class, None, None. -/
theorem parse_record_question_addr (data : Bytes) (offset l : Nat) (r : DNSRecord)
    (h : parse_record data offset true = some (l, r)) : r.addr = none := by
  unfold parse_record at h
  cases hpn : parse_name data offset with
  | none => rw [hpn] at h; exact absurd h (by simp)
  | some v =>
    obtain ⟨nlen, name⟩ := v
    rw [hpn] at h
    dsimp only at h
    by_cases hle : offset + nlen + 4 ≤ data.length
    · rw [if_pos rfl, if_pos hle] at h
      simp only [Option.some.injEq, Prod.mk.injEq] at h
      rw [← h.2]
    · rw [if_pos rfl, if_neg hle] at h
      exact absurd h (by simp)

/-- Every record produced by the question-section loop carries None in
its addr slot. -/
theorem parseRecords_question_addr (data : Bytes) :
    ∀ (n offset o : Nat) (qds : List DNSRecord),
      parseRecords data n offset true = some (o, qds) → ∀ r ∈ qds, r.addr = none := by
  intro n
  induction n with
  | zero =>
    intro offset o qds h r hr
    simp [parseRecords] at h
    rw [h.2] at hr
    simp at hr
  | succ n ih =>
    intro offset o qds h r hr
    unfold parseRecords at h
    cases hpr : parse_record data offset true with
    | none => rw [hpr] at h; exact absurd h (by simp)
    | some v =>
      obtain ⟨l, rec⟩ := v
      rw [hpr] at h
      dsimp only at h
      cases hrest : parseRecords data n (offset + l) true with
      | none => rw [hrest] at h; exact absurd h (by simp)
      | some w =>
        obtain ⟨o2, rs⟩ := w
        rw [hrest] at h
        dsimp only at h
        simp only [Option.some.injEq, Prod.mk.injEq] at h
        rw [← h.2] at hr
        rcases List.mem_cons.1 hr with hr1 | hr2
        · rw [hr1]; exact parse_record_question_addr data offset l rec hpr
        · exact ih (offset + l) o2 rs hrest r hr2

/-- C1.  The claim as frozen fails: a hostname with an empty interior
label (consecutive dots) has every label at most 63 bytes long and an
encoded form of at most 255 bytes, yet the empty label is emitted as a
zero length byte, which the decoder takes as the terminator, so decoding
stops after the first label.  Amended claim, proved here: for every
hostname whose labels after dot-stripping are each between 1 and 63
bytes long and whose encoded form is at most 255 bytes, decoding the
bytes produced by build_address at offset 0 consumes the whole encoding
and returns exactly the dot-stripped hostname, hence the identical label
sequence. -/
theorem C1_thm (h : Bytes)
    (hlab : ∀ lab ∈ (pyStrip h).splitOn 46, 1 ≤ lab.length ∧ lab.length ≤ 63)
    (hlen : (encodeLabels ((pyStrip h).splitOn 46)).length ≤ 255) :
    build_address h = some (encodeLabels ((pyStrip h).splitOn 46)) ∧
    parse_name (encodeLabels ((pyStrip h).splitOn 46)) 0 =
      some ((encodeLabels ((pyStrip h).splitOn 46)).length, pyStrip h) := by
  constructor
  · exact buildLabels_eq _ (fun lab hl => (hlab lab hl).2)
  · have hcore := parseNameF_encode ((pyStrip h).splitOn 46) [] []
      ((encodeLabels ((pyStrip h).splitOn 46)).length + 1) hlab
      (by have := length_lt_encodeLabels ((pyStrip h).splitOn 46); omega)
    simp only [List.nil_append, List.append_nil, List.length_nil, Nat.zero_add] at hcore
    unfold parse_name
    rw [hcore]
    simp only [Option.map_some', Nat.sub_zero, joinDots, List.intercalate_splitOn]

/-- C1 witness: the round trip evaluated on the hostname example.com. -/
theorem C1_witness :
    (∀ lab ∈ (pyStrip [101, 120, 97, 109, 112, 108, 101, 46, 99, 111, 109]).splitOn 46,
      1 ≤ lab.length ∧ lab.length ≤ 63) ∧
    (encodeLabels ((pyStrip [101, 120, 97, 109, 112, 108, 101, 46, 99, 111, 109]).splitOn 46)).length ≤ 255 ∧
    (build_address [101, 120, 97, 109, 112, 108, 101, 46, 99, 111, 109] =
      some (encodeLabels ((pyStrip [101, 120, 97, 109, 112, 108, 101, 46, 99, 111, 109]).splitOn 46)) ∧
    parse_name (encodeLabels ((pyStrip [101, 120, 97, 109, 112, 108, 101, 46, 99, 111, 109]).splitOn 46)) 0 =
      some ((encodeLabels ((pyStrip [101, 120, 97, 109, 112, 108, 101, 46, 99, 111, 109]).splitOn 46)).length,
        pyStrip [101, 120, 97, 109, 112, 108, 101, 46, 99, 111, 109])) :=
  ⟨by decide, by decide,
    C1_thm [101, 120, 97, 109, 112, 108, 101, 46, 99, 111, 109] (by decide) (by decide)⟩

/-- C1 counterexample: the hostname a..b (bytes 97 46 46 98) has labels
a, empty, b, each of length at most 63 bytes, and a 6-byte encoding, yet
decoding the encoder output at offset 0 stops at the zero length byte of
the empty label and returns the single-label name a after 3 bytes, not
the original label sequence. -/
theorem C1_cex :
    build_address [97, 46, 46, 98] = some [1, 97, 0, 1, 98, 0] ∧
    (pyStrip [97, 46, 46, 98]).splitOn 46 = [[97], [], [98]] ∧
    (∀ lab ∈ [[97], ([] : Bytes), [98]], lab.length ≤ 63) ∧
    ([1, 97, 0, 1, 98, 0] : Bytes).length ≤ 255 ∧
    parse_name [1, 97, 0, 1, 98, 0] 0 = some (3, [97]) ∧
    ([97] : Bytes) ≠ pyStrip [97, 46, 46, 98] := by decide

/-- C2.  The source decoder has no cycle or depth protection: on the
2-byte buffer consisting of a compression pointer to offset 0, the
recursion at offset 0 immediately re-enters offset 0, so no finite
recursion depth completes; every fuel is exhausted, which is the
embedded image of the unbounded recursion of the source (CPython
eventually raises RecursionError).  The claim that decoding fails
closed with MalformedMessage on such input describes the spec's
required correction, not the source. -/
theorem C2_thm : ∀ fuel, parseNameF fuel [192, 0] 0 = none := by
  intro fuel
  induction fuel with
  | zero => rfl
  | succ f ih =>
    show (match ([192, 0] : Bytes)[0]? with
      | none => none
      | some l =>
        if l = 0 then some (0 + 1, [])
        else if l &&& 192 = 192 then
          match ([192, 0] : Bytes)[0 + 1]? with
          | none => none
          | some b2 =>
            match parseNameF f [192, 0] ((l * 256 + b2) % 16384) with
            | none => none
            | some (_, labs) => some (0 + 2, [joinDots labs])
        else
          match parseNameF f [192, 0] (0 + 1 + l) with
          | none => none
          | some (q, labs) => some (q, pySlice [192, 0] (0 + 1) (0 + 1 + l) :: labs))
      = none
    norm_num
    rw [ih]

set_option maxRecDepth 4000 in
/-- C6.  The source evaluates the three instances of the claim as the
claim states: example.com is valid, a leading-hyphen name is invalid,
and a 256-byte name is invalid.  The trailing-dot half of the claim is
where the code breaks: under Python 3 the comparison of the integer
hostname[-1] with the bytes object for a dot is always false, so the
trailing dot is never stripped, the final empty label fails the
pattern, and example.com. (with trailing dot) is rejected although the
claim and the spec say it must be accepted after stripping. -/
theorem C6_thm :
    is_valid_hostname [101, 120, 97, 109, 112, 108, 101, 46, 99, 111, 109] = some true ∧
    is_valid_hostname [45, 98, 97, 100, 46, 99, 111, 109] = some false ∧
    is_valid_hostname (List.replicate 256 97) = some false ∧
    is_valid_hostname [101, 120, 97, 109, 112, 108, 101, 46, 99, 111, 109, 46] = some false := by
  decide

/-- C9.  Encoding a 63-byte label succeeds and a 64-byte label fails
(the Python None, the source's only signal).  Building a request for the
64-byte-label hostname also fails before any byte string is produced:
the none here is the image of the uncaught TypeError the source raises
when it concatenates the None from build_address with bytes, which is a
crash rather than the tagged InvalidHostname failure the claim and the
spec require. -/
theorem C9_thm :
    build_address (List.replicate 63 97) = some (63 :: (List.replicate 63 97 ++ [0])) ∧
    build_address (List.replicate 64 97) = none ∧
    build_request [0, 0] (List.replicate 64 97) 1 = none := by decide

/-- C10.  Name encoding ignores leading dots: build_address strips dots
from both ends of the hostname before splitting, so any number of
leading dots leaves the encoded bytes unchanged. -/
theorem C10_thm (h : Bytes) (k : Nat) :
    build_address (List.replicate k 46 ++ h) = build_address h := by
  have hdrop : (List.replicate k 46 ++ h).dropWhile (· == 46) = h.dropWhile (· == 46) := by
    induction k with
    | zero => rfl
    | succ n ih =>
      rw [List.replicate_succ, List.cons_append, List.dropWhile_cons]
      simpa using ih
  unfold build_address pyStrip
  rw [hdrop]

/-- C3.  Amended claim: a failed record or name decode at any point of
any of the four sections makes the whole parse return none (the caught
exception the source maps to None), so no partial response is ever
returned; an RDLENGTH that would read past the end of the buffer aborts
the parse for A records (the four-byte address conversion fails on a
short slice) and for AAAA records (sixteen bytes).  The claim as frozen
fails because a record of any other type silently truncates its RDATA
to the bytes available instead of failing, see the counterexample. -/
theorem C3_thm :
    (∀ (data : Bytes) (offset rdlength : Nat), data.length < offset + 4 →
      parse_ip QTYPE_A data rdlength offset = none) ∧
    (∀ (data : Bytes) (offset rdlength : Nat), data.length < offset + 16 →
      parse_ip QTYPE_AAAA data rdlength offset = none) ∧
    (∀ data : Bytes, parse_header data = none → parse_response data = none) ∧
    (∀ (data : Bytes) (h : Header), parse_header data = some h →
      parseRecords data h.res_qdcount 12 true = none → parse_response data = none) ∧
    (∀ (data : Bytes) (h : Header) (o1 : Nat) (qds : List DNSRecord),
      parse_header data = some h →
      parseRecords data h.res_qdcount 12 true = some (o1, qds) →
      parseRecords data h.res_ancount o1 false = none → parse_response data = none) ∧
    (∀ (data : Bytes) (h : Header) (o1 : Nat) (qds : List DNSRecord)
      (o2 : Nat) (ans : List DNSRecord),
      parse_header data = some h →
      parseRecords data h.res_qdcount 12 true = some (o1, qds) →
      parseRecords data h.res_ancount o1 false = some (o2, ans) →
      parseRecords data h.res_nscount o2 false = none → parse_response data = none) ∧
    (∀ (data : Bytes) (h : Header) (o1 : Nat) (qds : List DNSRecord)
      (o2 : Nat) (ans : List DNSRecord) (o3 : Nat) (r3 : List DNSRecord),
      parse_header data = some h →
      parseRecords data h.res_qdcount 12 true = some (o1, qds) →
      parseRecords data h.res_ancount o1 false = some (o2, ans) →
      parseRecords data h.res_nscount o2 false = some (o3, r3) →
      parseRecords data h.res_arcount o3 false = none → parse_response data = none) := by
  refine ⟨?_, ?_, ?_, ?_, ?_, ?_, ?_⟩
  · intro data offset rdlength hlt
    have hslen : ¬((pySlice data offset (offset + rdlength)).length = 4) := by
      simp only [pySlice, List.length_take, List.length_drop]
      omega
    unfold parse_ip
    rw [if_pos rfl]
    show (if (pySlice data offset (offset + rdlength)).length = 4
      then some (Payload.ip4 (pySlice data offset (offset + rdlength))) else none) = none
    rw [if_neg hslen]
  · intro data offset rdlength hlt
    have hslen : ¬((pySlice data offset (offset + rdlength)).length = 16) := by
      simp only [pySlice, List.length_take, List.length_drop]
      omega
    have hne : ¬(QTYPE_AAAA = QTYPE_A) := by decide
    unfold parse_ip
    rw [if_neg hne, if_pos rfl]
    show (if (pySlice data offset (offset + rdlength)).length = 16
      then some (Payload.ip6 (pySlice data offset (offset + rdlength))) else none) = none
    rw [if_neg hslen]
  · intro data h
    unfold parse_response
    split
    · rw [h]
    · rfl
  · intro data h h1 h2
    unfold parse_response
    split
    · rw [h1]; dsimp only; rw [h2]
    · rfl
  · intro data h o1 qds h1 h2 h3
    unfold parse_response
    split
    · rw [h1]; dsimp only; rw [h2]; dsimp only; rw [h3]
    · rfl
  · intro data h o1 qds o2 ans h1 h2 h3 h4
    unfold parse_response
    split
    · rw [h1]; dsimp only; rw [h2]; dsimp only; rw [h3]; dsimp only; rw [h4]
    · rfl
  · intro data h o1 qds o2 ans o3 r3 h1 h2 h3 h4 h5
    unfold parse_response
    split
    · rw [h1]; dsimp only; rw [h2]; dsimp only; rw [h3]; dsimp only; rw [h4]
      dsimp only; rw [h5]
    · rfl

/-- C3 witness: an A record whose four address bytes would lie past the
end of an empty buffer fails to parse. -/
theorem C3_witness :
    ([] : Bytes).length < 0 + 4 ∧ parse_ip QTYPE_A [] 4 0 = none :=
  ⟨by decide, C3_thm.1 [] 0 4 (by decide)⟩

/-- C3 counterexample: overrunBuf declares one answer record of unknown
type 99 with RDLENGTH 100 although only two RDATA bytes remain in the
25-byte buffer.  The claim as frozen demands a MalformedMessage abort,
but the source returns a complete DNSResponse whose answer keeps the
silently truncated two raw bytes. -/
theorem C3_cex :
    parse_response overrunBuf =
      some ⟨none, [], [(some (Payload.raw [1, 2]), 99, 1)]⟩ ∧
    overrunBuf.length < 23 + 100 := by decide

/-- C4.  Amended claim: the built query is the given 16-bit transaction
id, then the fixed flag bytes 1 and 0 (so QR is 0, Opcode is 0, AA is
0, TC is 0 and RD is SET, not unset as the frozen claim says), then
QDCOUNT 1 and zero ANCOUNT, NSCOUNT, ARCOUNT, then the encoded question
name, then the 16-bit qtype and the 16-bit qclass IN.  The conjuncts
spell out the flag bits of the first flags byte of the built query. -/
theorem C4_thm (r0 r1 : Nat) (address : Bytes) (qtype : Nat) (e : Bytes)
    (he : build_address address = some e) :
    ∃ q, build_request [r0, r1] address qtype = some q ∧
      q = [r0, r1] ++ [1, 0] ++ [0, 1] ++ [0, 0] ++ [0, 0] ++ [0, 0] ++ e ++
        pack16 qtype ++ pack16 QCLASS_IN ∧
      q[2]? = some 1 ∧
      (1 : Nat) &&& 128 = 0 ∧ ((1 : Nat) >>> 3) &&& 15 = 0 ∧
      (1 : Nat) &&& 64 = 0 ∧ (1 : Nat) &&& 2 = 0 ∧ (1 : Nat) &&& 1 = 1 ∧
      q[3]? = some 0 ∧
      read16 q 4 = 1 ∧ read16 q 6 = 0 ∧ read16 q 8 = 0 ∧ read16 q 10 = 0 := by
  refine ⟨[r0, r1] ++ [1, 0, 0, 1, 0, 0, 0, 0, 0, 0] ++ e ++ pack16 qtype ++ pack16 QCLASS_IN,
    build_request_eq [r0, r1] address qtype e he, by simp, ?_, by decide, by decide,
    by decide, by decide, by decide, ?_, ?_, ?_, ?_, ?_⟩ <;> rfl

/-- C4 witness: the built query for hostname a and qtype A with id bytes
0 0, with its flag facts evaluated. -/
theorem C4_witness :
    build_address [97] = some [1, 97, 0] ∧
    ∃ q, build_request [0, 0] [97] 1 = some q ∧
      q = [0, 0] ++ [1, 0] ++ [0, 1] ++ [0, 0] ++ [0, 0] ++ [0, 0] ++ [1, 97, 0] ++
        pack16 1 ++ pack16 QCLASS_IN ∧
      q[2]? = some 1 ∧
      (1 : Nat) &&& 128 = 0 ∧ ((1 : Nat) >>> 3) &&& 15 = 0 ∧
      (1 : Nat) &&& 64 = 0 ∧ (1 : Nat) &&& 2 = 0 ∧ (1 : Nat) &&& 1 = 1 ∧
      q[3]? = some 0 ∧
      read16 q 4 = 1 ∧ read16 q 6 = 0 ∧ read16 q 8 = 0 ∧ read16 q 10 = 0 :=
  ⟨by decide, C4_thm 0 0 [97] 1 [1, 97, 0] (by decide)⟩

/-- C4 counterexample: the frozen claim says the query header has RD
unset, but the first flags byte of every built query is 1, whose
low bit, the RD bit of the RFC1035 layout, is set. -/
theorem C4_cex :
    build_request [0, 0] [97] 1 =
      some [0, 0, 1, 0, 0, 1, 0, 0, 0, 0, 0, 0, 1, 97, 0, 0, 1, 0, 1] ∧
    ([0, 0, 1, 0, 0, 1, 0, 0, 0, 0, 0, 0, 1, 97, 0, 0, 1, 0, 1] : Bytes)[2]? = some 1 ∧
    ¬((1 : Nat) &&& 1 = 0) := by decide

/-- C5.  Amended claim: a successfully parsed response has its hostname
taken from the name of the first question record (none when there is no
question), its questions list holds one triple per question record whose
first component is the Python None of the question tuple's addr slot,
NOT the question's name as the frozen claim says, its answers list holds
one (address, type, class) triple per answer record, and the authority
and additional records are parsed without being retained. -/
theorem C5_thm (data : Bytes) (hd : Header) (o1 : Nat) (qds : List DNSRecord)
    (o2 : Nat) (ans : List DNSRecord) (o3 : Nat) (r3 : List DNSRecord)
    (o4 : Nat) (r4 : List DNSRecord)
    (hlen : 12 ≤ data.length)
    (hh : parse_header data = some hd)
    (hq : parseRecords data hd.res_qdcount 12 true = some (o1, qds))
    (ha : parseRecords data hd.res_ancount o1 false = some (o2, ans))
    (hn : parseRecords data hd.res_nscount o2 false = some (o3, r3))
    (hr : parseRecords data hd.res_arcount o3 false = some (o4, r4)) :
    parse_response data =
      some ⟨qds.head?.map DNSRecord.name,
        qds.map (fun r => (r.addr, r.rtype, r.rclass)),
        ans.map (fun r => (r.addr, r.rtype, r.rclass))⟩ ∧
    ∀ r ∈ qds, r.addr = none := by
  constructor
  · unfold parse_response
    rw [if_pos hlen, hh]
    dsimp only
    rw [hq]
    dsimp only
    rw [ha]
    dsimp only
    rw [hn]
    dsimp only
    rw [hr]
  · exact parseRecords_question_addr data hd.res_qdcount 12 o1 qds hq

/-- C5 witness: the one-question response evaluated end to end; the
section hypotheses are discharged on the concrete buffer and the
conclusion follows by the theorem. -/
theorem C5_witness :
    12 ≤ oneQuestionBuf.length ∧
    parse_header oneQuestionBuf = some ⟨1, 0, 0, 0, 0, 1, 0, 0, 0⟩ ∧
    parseRecords oneQuestionBuf 1 12 true = some (19, [⟨[97], none, 1, 1, none⟩]) ∧
    parseRecords oneQuestionBuf 0 19 false = some (19, []) ∧
    (parse_response oneQuestionBuf =
      some ⟨([⟨[97], none, 1, 1, none⟩] : List DNSRecord).head?.map DNSRecord.name,
        ([⟨[97], none, 1, 1, none⟩] : List DNSRecord).map (fun r => (r.addr, r.rtype, r.rclass)),
        ([] : List DNSRecord).map (fun r => (r.addr, r.rtype, r.rclass))⟩ ∧
      ∀ r ∈ ([⟨[97], none, 1, 1, none⟩] : List DNSRecord), r.addr = none) :=
  ⟨by decide, by decide, by decide, by decide,
    C5_thm oneQuestionBuf ⟨1, 0, 0, 0, 0, 1, 0, 0, 0⟩ 19 [⟨[97], none, 1, 1, none⟩]
      19 [] 19 [] 19 [] (by decide) (by decide) (by decide) (by decide) (by decide) (by decide)⟩

/-- C5 counterexample: parsing the one-question buffer yields a response
whose hostname is the question's name (the byte for a), but whose single
question triple starts with the Python None of the record's addr slot
rather than that name, so the frozen claim's (name, type, class) shape
does not hold. -/
theorem C5_cex :
    parse_response oneQuestionBuf = some ⟨some [97], [(none, 1, 1)], []⟩ ∧
    (none : Option Payload) ≠ some (Payload.name [97]) := by decide

/-- C7.  Amended claim: header parsing returns the Python None exactly
when the buffer is shorter than 12 bytes.  Otherwise it unpacks the
16-bit transaction id, QR as the first flags byte masked with 128 (0 for
a query, 128 for a reply, not 1 as the frozen claim says), TC as that
byte masked with 2, RA and RCODE from the second flags byte, and the
four 16-bit counts; Opcode, AA and RD are not extracted at all.  On a
built query it recovers the transaction id of the two id bytes and QR 0;
on the synthesized reply obtained by replacing the two flag bytes with
128 and 0 it recovers the same id and QR 128. -/
theorem C7_thm :
    (∀ data : Bytes, parse_header data = none ↔ data.length < 12) ∧
    (∀ (r0 r1 : Nat) (address : Bytes) (qtype : Nat) (e : Bytes),
      build_address address = some e →
      ∃ q hq hr, build_request [r0, r1] address qtype = some q ∧
        parse_header q = some hq ∧
        parse_header ([r0, r1] ++ [128, 0] ++ q.drop 4) = some hr ∧
        hq.res_id = 256 * r0 + r1 ∧ hr.res_id = 256 * r0 + r1 ∧
        hq.res_qr = 0 ∧ hr.res_qr = 128) := by
  constructor
  · intro data
    unfold parse_header
    split
    · simp only [reduceCtorEq, false_iff]
      omega
    · simp only [true_iff]
      omega
  · intro r0 r1 address qtype e he
    refine ⟨[r0, r1] ++ [1, 0, 0, 1, 0, 0, 0, 0, 0, 0] ++ e ++ pack16 qtype ++ pack16 QCLASS_IN,
      ⟨256 * r0 + r1, 0, 0, 0, 0, 1, 0, 0, 0⟩, ⟨256 * r0 + r1, 128, 0, 0, 0, 1, 0, 0, 0⟩,
      build_request_eq [r0, r1] address qtype e he, ?_, ?_, rfl, rfl, rfl, rfl⟩
    · unfold parse_header
      rw [if_pos (by simp)]
      simp [read16]
    · unfold parse_header
      rw [if_pos (by simp)]
      simp [read16]
      decide

/-- C7 witness: the iff and the query-reply id round trip evaluated on a
concrete query for hostname a with id bytes 0 and 7. -/
theorem C7_witness :
    (parse_header [] = none ↔ ([] : Bytes).length < 12) ∧
    (build_address [97] = some [1, 97, 0] ∧
      ∃ q hq hr, build_request [0, 7] [97] 1 = some q ∧
        parse_header q = some hq ∧
        parse_header ([0, 7] ++ [128, 0] ++ q.drop 4) = some hr ∧
        hq.res_id = 256 * 0 + 7 ∧ hr.res_id = 256 * 0 + 7 ∧
        hq.res_qr = 0 ∧ hr.res_qr = 128) :=
  ⟨C7_thm.1 [], by decide, C7_thm.2 0 7 [97] 1 [1, 97, 0] (by decide)⟩

/-- C7 counterexample: on a reply header the source returns the QR field
as the masked byte value 128, not 1 as the frozen claim states (and it
extracts no Opcode, AA or RD fields at all). -/
theorem C7_cex :
    parse_header replyHeaderBuf = some ⟨1, 128, 0, 0, 0, 0, 0, 0, 0⟩ ∧
    (128 : Nat) ≠ 1 := by decide

/-- C8.  Confirmed.  General part: whenever the decoder meets a byte
with both top bits set at some offset and the name at the 14-bit
pointed-to offset decodes to some labels, the decode at that offset
returns position offset plus 2 (bytes consumed exactly 2 for the
pointer at its own location) and the pointed-to labels joined as the
name (concatenated after the labels already read, here none).
Concrete part: in the two-question message twoQuestionBuf the second
question's name is purely a pointer to offset 12; both names decode to
the same text (the byte for a) and the pointer consumes exactly 2 bytes
while the original name consumed 3. -/
theorem C8_thm :
    (∀ (fuel : Nat) (data : Bytes) (offset b1 b2 k : Nat) (labs : List Bytes),
      data[offset]? = some b1 → b1 &&& 192 = 192 → data[offset + 1]? = some b2 →
      parseNameF fuel data ((b1 * 256 + b2) % 16384) = some (k, labs) →
      parseNameF (fuel + 1) data offset = some (offset + 2, [joinDots labs])) ∧
    parse_name twoQuestionBuf 12 = some (3, [97]) ∧
    parse_name twoQuestionBuf 19 = some (2, [97]) := by
  refine ⟨?_, by decide, by decide⟩
  intro fuel data offset b1 b2 k labs h1 h2 h3 h4
  have hne : ¬(b1 = 0) := by
    rintro rfl
    simp at h2
  show (match data[offset]? with
    | none => none
    | some l =>
      if l = 0 then some (offset + 1, [])
      else if l &&& 192 = 192 then
        match data[offset + 1]? with
        | none => none
        | some b2 =>
          match parseNameF fuel data ((l * 256 + b2) % 16384) with
          | none => none
          | some (_, labs) => some (offset + 2, [joinDots labs])
      else
        match parseNameF fuel data (offset + 1 + l) with
        | none => none
        | some (q, labs) =>
          some (q, pySlice data (offset + 1) (offset + 1 + l) :: labs))
    = some (offset + 2, [joinDots labs])
  rw [h1]
  dsimp only
  rw [if_neg hne, if_pos h2, h3]
  dsimp only
  rw [h4]

/-- C8 witness: a buffer whose first name is purely a pointer to the
empty name at offset 2; the general pointer rule applied at fuel 1. -/
theorem C8_witness :
    ([192, 2, 0] : Bytes)[0]? = some 192 ∧ (192 : Nat) &&& 192 = 192 ∧
    ([192, 2, 0] : Bytes)[0 + 1]? = some 2 ∧
    parseNameF 1 [192, 2, 0] ((192 * 256 + 2) % 16384) = some (3, []) ∧
    parseNameF (1 + 1) [192, 2, 0] 0 = some (0 + 2, [joinDots []]) :=
  ⟨by decide, by decide, by decide, by decide,
    C8_thm.1 1 [192, 2, 0] 0 192 2 3 [] (by decide) (by decide) (by decide) (by decide)⟩
